import Mathlib

/-!
Shallow embedding of the classification, ordering and result-caching core of
the `mac_utils` repository:

* `src/tmuxinator_scripts/tmuxinator-ls-ddl.py` → namespace `LsDdl`
* `src/tmuxinator-summary.py`                   → namespace `Summary`

Modelling conventions:

* Calendar dates are integer day numbers (Python `date` subtraction yields a
  whole number of days), so a project deadline is `Option Int` and "today" is
  an explicit `Int`/`String` parameter wherever the source reads
  `date.today()`.
* Python string comparison is lexicographic by code point; it is modelled by
  `charListLe` on the underlying character lists.
* Python's `str.lower()` is modelled by `lowerStr` (ASCII lowering, which
  agrees with Python on all tag values the code distinguishes).
* Python `list.sort(key=...)` is modelled by `List.insertionSort` with the
  corresponding key comparison (both are stable sorts; every claim below only
  uses sortedness and permutation).
* The single-slot cache file is modelled as `Option (String × String)`
  (ISO date string, content); the external API call is abstracted by a
  `CallOutcome` parameter.
-/

namespace MacUtils

/-- Lexicographic `≤` on character lists by code point, mirroring Python's
string comparison. -/
def charListLe : List Char → List Char → Bool
  | [], _ => true
  | _ :: _, [] => false
  | a :: as, b :: bs =>
    if a.toNat < b.toNat then true
    else if b.toNat < a.toNat then false
    else charListLe as bs

theorem charListLe_total : ∀ a b : List Char, charListLe a b = true ∨ charListLe b a = true := by
  intro a
  induction a with
  | nil => intro b; left; simp [charListLe]
  | cons x xs ih =>
    intro b
    cases b with
    | nil => right; simp [charListLe]
    | cons y ys =>
      by_cases h1 : x.toNat < y.toNat
      · left; simp [charListLe, h1]
      · by_cases h2 : y.toNat < x.toNat
        · right; simp [charListLe, h2]
        · rcases ih ys with h | h
          · left; simp [charListLe, h1, h2, h]
          · right; simp [charListLe, h1, h2, h]

theorem charListLe_trans :
    ∀ a b c : List Char, charListLe a b = true → charListLe b c = true →
      charListLe a c = true := by
  intro a
  induction a with
  | nil => intro b c _ _; simp [charListLe]
  | cons x xs ih =>
    intro b c hab hbc
    cases b with
    | nil => simp [charListLe] at hab
    | cons y ys =>
      cases c with
      | nil => simp [charListLe] at hbc
      | cons z zs =>
        simp only [charListLe] at hab hbc ⊢
        split_ifs at hab hbc ⊢ <;> try rfl
        all_goals try omega
        all_goals exact ih ys zs hab hbc

/-- Python's `str.lower()` restricted to ASCII letters (sufficient for every
tag value the source distinguishes). -/
def lowerStr (s : String) : String :=
  ⟨s.data.map Char.toLower⟩

namespace LsDdl

/-- `Project` from `tmuxinator-ls-ddl.py`. -/
structure Project where
  name : String
  ddl : Option Int
  priority : String
  description : String
  file_path : String
deriving DecidableEq

/-- `Project.__init__`: `self.priority = priority.lower() if priority else
"normal"`, `self.description = description or ""` (Python truthiness: both
`None` and the empty string are falsy). -/
def mkProject (name : String) (ddl : Option Int) (priority : Option String)
    (description : Option String) (file_path : String) : Project where
  name := name
  ddl := ddl
  priority :=
    match priority with
    | none => "normal"
    | some s => if s = "" then "normal" else lowerStr s
  description :=
    match description with
    | none => ""
    | some d => d
  file_path := file_path

/-- `Project.days_left`. -/
def days_left (today : Int) (p : Project) : Option Int :=
  match p.ddl with
  | none => none
  | some d => some (d - today)

/-- `Project.is_overdue`. -/
def is_overdue (today : Int) (p : Project) : Bool :=
  match days_left today p with
  | none => false
  | some d => d < 0

/-- `Project.urgency`. -/
def urgency (today : Int) (p : Project) : String :=
  match p.ddl with
  | none => "no_deadline"
  | some d => if d - today ≤ 7 then "urgent" else "not_urgent"

/-- `Project.importance`. -/
def importance (p : Project) : String :=
  if p.priority = "high" ∨ p.priority = "urgent" then "important"
  else if p.priority = "low" then "low"
  else "routine"

/-- The quadrant lookup dict in `Project.quadrant`. -/
def quadrantTable : List ((String × String) × String) :=
  [(("urgent", "important"), "q1"),
   (("not_urgent", "important"), "q2"),
   (("urgent", "routine"), "q3"),
   (("not_urgent", "routine"), "q4"),
   (("urgent", "low"), "q5"),
   (("not_urgent", "low"), "q6"),
   (("no_deadline", "important"), "q1"),
   (("no_deadline", "routine"), "q4"),
   (("no_deadline", "low"), "q6")]

/-- `mapping.get((urg, imp), "q4")`. -/
def quadrantOf (urg imp : String) : String :=
  (quadrantTable.lookup (urg, imp)).getD "q4"

/-- `Project.quadrant`. -/
def quadrant (today : Int) (p : Project) : String :=
  quadrantOf (urgency today p) (importance p)

/-- `Project.display_deadline` (terse matrix-view variant). -/
def display_deadline (today : Int) (p : Project) : String :=
  match p.ddl with
  | none => "No ddl"
  | some dd =>
    let days := dd - today
    if days < 0 then toString days.natAbs ++ "d ago"
    else if days = 0 then "Today"
    else toString days ++ "d"

/-- First component of the in-quadrant sort key: `0 if p.is_overdue else 1`. -/
def overdueRank (today : Int) (p : Project) : Nat :=
  if is_overdue today p then 0 else 1

/-- Second component: `p.days_left if p.days_left is not None else 9999`. -/
def effDays (today : Int) (p : Project) : Int :=
  (days_left today p).getD 9999

/-- Comparison by the composite sort key
`(0 if p.is_overdue else 1, p.days_left ?? 9999, p.name)` used by
`group_by_quadrant` (Python tuple `≤`). -/
def sortLe (today : Int) (a b : Project) : Bool :=
  if overdueRank today a < overdueRank today b then true
  else if overdueRank today b < overdueRank today a then false
  else if effDays today a < effDays today b then true
  else if effDays today b < effDays today a then false
  else charListLe a.name.data b.name.data

/-- `sortLe` as a relation, for `List.insertionSort`. -/
def sortRel (today : Int) (a b : Project) : Prop :=
  sortLe today a b = true

instance (today : Int) : DecidableRel (sortRel today) :=
  fun a b => instDecidableEqBool (sortLe today a b) true

theorem sortLe_total (today : Int) (a b : Project) :
    sortLe today a b = true ∨ sortLe today b a = true := by
  unfold sortLe
  rcases charListLe_total a.name.data b.name.data with h | h <;>
    split_ifs <;> simp_all <;> omega

theorem sortLe_trans (today : Int) (a b c : Project) (hab : sortLe today a b = true)
    (hbc : sortLe today b c = true) : sortLe today a c = true := by
  unfold sortLe at hab hbc ⊢
  split_ifs at hab hbc ⊢ <;> try rfl
  all_goals try omega
  all_goals exact charListLe_trans _ _ _ hab hbc

instance (today : Int) : IsTotal Project (sortRel today) :=
  ⟨fun a b => sortLe_total today a b⟩

instance (today : Int) : IsTrans Project (sortRel today) :=
  ⟨fun a b c => sortLe_trans today a b c⟩

/-- The keys of the `quadrants` dict in `group_by_quadrant`. -/
def quadrantKeys : List String := ["q1", "q2", "q3", "q4", "q5", "q6"]

/-- The (sorted) list held by `group_by_quadrant`'s dict under key `q`:
appending each project with `project.quadrant == q` in input order and then
sorting by the composite key. -/
def groupsFor (today : Int) (projects : List Project) (q : String) : List Project :=
  List.insertionSort (sortRel today) (projects.filter (fun p => quadrant today p = q))

/-- `group_by_quadrant`, as the association list of its six dict entries. -/
def group_by_quadrant (today : Int) (projects : List Project) :
    List (String × List Project) :=
  quadrantKeys.map (fun q => (q, groupsFor today projects q))

end LsDdl

namespace Summary

/-- `ProjectWithProgress` from `tmuxinator-summary.py`. -/
structure ProjectWithProgress where
  name : String
  ddl : Option Int
  priority : String
  description : String
  root : Option String
  file_path : String
  progress_content : Option String
deriving DecidableEq

/-- `ProjectWithProgress.__init__` (same priority/description normalization as
`LsDdl.mkProject`); `progress_content` starts out `None`. -/
def mkProjectWithProgress (name : String) (ddl : Option Int) (priority : Option String)
    (description : Option String) (root : Option String) (file_path : String) :
    ProjectWithProgress where
  name := name
  ddl := ddl
  priority :=
    match priority with
    | none => "normal"
    | some s => if s = "" then "normal" else lowerStr s
  description :=
    match description with
    | none => ""
    | some d => d
  root := root
  file_path := file_path
  progress_content := none

/-- `ProjectWithProgress.days_left`. -/
def days_left (today : Int) (p : ProjectWithProgress) : Option Int :=
  match p.ddl with
  | none => none
  | some d => some (d - today)

/-- `ProjectWithProgress.is_overdue`. -/
def is_overdue (today : Int) (p : ProjectWithProgress) : Bool :=
  match days_left today p with
  | none => false
  | some d => d < 0

/-- `ProjectWithProgress.display_deadline` (detail-view variant). -/
def display_deadline (today : Int) (p : ProjectWithProgress) : String :=
  match p.ddl with
  | none => "No deadline"
  | some dd =>
    let days := dd - today
    if days < 0 then "OVERDUE by " ++ toString days.natAbs ++ "d"
    else if days = 0 then "DUE TODAY"
    else if days ≤ 3 then "URGENT (" ++ toString days ++ "d left)"
    else if days ≤ 7 then "SOON (" ++ toString days ++ "d left)"
    else toString days ++ "d left"

/-- Comparison by the key `(p.ddl, p.name)` used on the with-deadline list in
`load_projects` (the list it sorts only holds projects whose `ddl` is
present, so the `getD` default is never compared). -/
def ddlNameLe (a b : ProjectWithProgress) : Bool :=
  if a.ddl.getD 0 < b.ddl.getD 0 then true
  else if b.ddl.getD 0 < a.ddl.getD 0 then false
  else charListLe a.name.data b.name.data

/-- `ddlNameLe` as a relation. -/
def ddlNameRel (a b : ProjectWithProgress) : Prop :=
  ddlNameLe a b = true

/-- Comparison by the key `p.name` used on the no-deadline list in
`load_projects`. -/
def nameLe (a b : ProjectWithProgress) : Bool :=
  charListLe a.name.data b.name.data

/-- `nameLe` as a relation. -/
def nameRel (a b : ProjectWithProgress) : Prop :=
  nameLe a b = true

instance : DecidableRel ddlNameRel :=
  fun a b => instDecidableEqBool (ddlNameLe a b) true

instance : DecidableRel nameRel :=
  fun a b => instDecidableEqBool (nameLe a b) true

theorem ddlNameLe_total (a b : ProjectWithProgress) :
    ddlNameLe a b = true ∨ ddlNameLe b a = true := by
  unfold ddlNameLe
  rcases charListLe_total a.name.data b.name.data with h | h <;>
    split_ifs <;> simp_all <;> omega

theorem ddlNameLe_trans (a b c : ProjectWithProgress) (hab : ddlNameLe a b = true)
    (hbc : ddlNameLe b c = true) : ddlNameLe a c = true := by
  unfold ddlNameLe at hab hbc ⊢
  split_ifs at hab hbc ⊢ <;> try rfl
  all_goals try omega
  all_goals exact charListLe_trans _ _ _ hab hbc

instance : IsTotal ProjectWithProgress ddlNameRel := ⟨ddlNameLe_total⟩

instance : IsTrans ProjectWithProgress ddlNameRel := ⟨ddlNameLe_trans⟩

instance : IsTotal ProjectWithProgress nameRel :=
  ⟨fun a b => charListLe_total a.name.data b.name.data⟩

instance : IsTrans ProjectWithProgress nameRel :=
  ⟨fun a b c => charListLe_trans a.name.data b.name.data c.name.data⟩

/-- The deadline-triage ordering applied at the end of `load_projects`:
`projects_with_ddl` (sorted by `(ddl, name)`) followed by
`projects_without_ddl` (sorted by `name`); `if p.ddl` / `if not p.ddl` is
Python truthiness of the optional date. -/
def sort_projects (projects : List ProjectWithProgress) : List ProjectWithProgress :=
  List.insertionSort ddlNameRel (projects.filter (fun p => p.ddl.isSome)) ++
    List.insertionSort nameRel (projects.filter (fun p => !p.ddl.isSome))

/-- The single-slot cache file `ai_analysis.json`: absent, or
`{date, content}`. -/
abbrev Cache := Option (String × String)

/-- `AnalysisResult`: the `{"error": ..., "content": ...}` dict returned by
`AIAnalyzer.analyze_projects`. -/
structure AnalysisResult where
  error : Option String
  content : String
deriving DecidableEq

/-- `AIAnalyzer.load_cached_analysis`: a present result iff the stored date
equals today's date (a missing or unreadable file is a miss, never an
error). -/
def load_cached_analysis (cache : Cache) (today : String) : Option AnalysisResult :=
  match cache with
  | none => none
  | some (d, c) => if d = today then some ⟨none, c⟩ else none

/-- `AIAnalyzer.save_analysis_to_cache`: writes `{date: today, content}`,
replacing whatever the slot held. -/
def save_analysis_to_cache (_cache : Cache) (today content : String) : Cache :=
  some (today, content)

/-- Outcome of the single external call in `analyze_projects` (the
`client.chat.completions.create` exchange): the returned message content, or
the exception message. -/
inductive CallOutcome where
  | success (content : String)
  | failure (msg : String)
deriving DecidableEq

/-- What one invocation of `analyze_projects` produces: the returned result
dict, whether the external call was attempted, and the cache state after the
invocation. -/
structure AnalyzeOutput where
  result : AnalysisResult
  madeCall : Bool
  cache : Cache
deriving DecidableEq

/-- Python `if not self.api_key` (falsy for `None` and for the empty
string). -/
def keyMissing (apiKey : Option String) : Bool :=
  match apiKey with
  | none => true
  | some k => k = ""

/-- The configuration-error message of `analyze_projects`. -/
def apiKeyMissingMsg : String :=
  "API key not found. Set $chat_any_where_key environment variable."

/-- The empty-input error message of `analyze_projects`. -/
def noProjectsMsg : String := "No projects to analyze"

/-- `AIAnalyzer.analyze_projects`: consult the cache unless forced; then the
credential check, then the empty-input check; otherwise exactly one external
call, persisting the content iff it is truthy (a non-empty string). -/
def analyze_projects (apiKey : Option String) (cache : Cache) (today : String)
    (projects : List ProjectWithProgress) (force : Bool) (call : CallOutcome) :
    AnalyzeOutput :=
  match (if force then none else load_cached_analysis cache today) with
  | some cached => ⟨cached, false, cache⟩
  | none =>
    if keyMissing apiKey then ⟨⟨some apiKeyMissingMsg, ""⟩, false, cache⟩
    else if projects.isEmpty then ⟨⟨some noProjectsMsg, ""⟩, false, cache⟩
    else
      match call with
      | .success content =>
        ⟨⟨none, content⟩, true,
          if content = "" then cache else save_analysis_to_cache cache today content⟩
      | .failure msg => ⟨⟨some ("API call failed: " ++ msg), ""⟩, true, cache⟩

/-- What `SummaryApp.on_analysis_complete` puts on the AI panel. -/
inductive Delivery where
  | shownError (msg : String)
  | shownResults (content : String)
deriving DecidableEq

/-- The distinct empty-response failure message shown by
`on_analysis_complete` (Chinese for "AI returned an empty response"). -/
def emptyResponseMsg : String := "AI 返回了空响应"

/-- Python `not content or content.strip() == ""`: the content is empty or
entirely whitespace. -/
def blankContent (s : String) : Bool :=
  s = "" || s.data.all Char.isWhitespace

/-- `SummaryApp.on_analysis_complete`: a truthy `error` is shown as that
error; otherwise blank content is shown as the distinct empty-response
failure, and only non-blank content is shown as results. -/
def on_analysis_complete (result : AnalysisResult) : Delivery :=
  match result.error with
  | some e =>
    if e = "" then
      if blankContent result.content then .shownError emptyResponseMsg
      else .shownResults result.content
    else .shownError e
  | none =>
    if blankContent result.content then .shownError emptyResponseMsg
    else .shownResults result.content

end Summary

namespace LsDdl

/-- `quadrantOf` computed by the kernel on the nine table entries. -/
theorem quadrantOf_table_eval :
    quadrantOf "urgent" "important" = "q1" ∧
    quadrantOf "not_urgent" "important" = "q2" ∧
    quadrantOf "urgent" "routine" = "q3" ∧
    quadrantOf "not_urgent" "routine" = "q4" ∧
    quadrantOf "urgent" "low" = "q5" ∧
    quadrantOf "not_urgent" "low" = "q6" ∧
    quadrantOf "no_deadline" "important" = "q1" ∧
    quadrantOf "no_deadline" "routine" = "q4" ∧
    quadrantOf "no_deadline" "low" = "q6" := by
  decide

end LsDdl

/-- C1: the classifier is a total deterministic function of
`(deadline, priorityTag, today)`: urgency is `no_deadline` when the deadline
is absent, `urgent` when `daysLeft ≤ 7`, else `not_urgent`; importance is
`important` when the (already lower-cased) priority tag is `"high"` or
`"urgent"`, `low` when it is `"low"`, else `routine`; the quadrant is the
table value for `(urgency, importance)` on the nine listed pairs, and any
pair outside the table maps to `"q4"`. -/
theorem claim_C1 (today : Int) (p : LsDdl.Project) :
    (p.ddl = none → LsDdl.urgency today p = "no_deadline") ∧
    (∀ d : Int, p.ddl = some d →
      LsDdl.days_left today p = some (d - today) ∧
      (d - today ≤ 7 → LsDdl.urgency today p = "urgent") ∧
      (7 < d - today → LsDdl.urgency today p = "not_urgent")) ∧
    ((p.priority = "high" ∨ p.priority = "urgent") → LsDdl.importance p = "important") ∧
    (p.priority = "low" → LsDdl.importance p = "low") ∧
    (p.priority ∉ (["high", "urgent", "low"] : List String) →
      LsDdl.importance p = "routine") ∧
    (LsDdl.quadrant today p =
      LsDdl.quadrantOf (LsDdl.urgency today p) (LsDdl.importance p)) ∧
    (∀ u i : String, (u, i) ∉ LsDdl.quadrantTable.map Prod.fst →
      LsDdl.quadrantOf u i = "q4") := by
  refine ⟨?_, ?_, ?_, ?_, ?_, rfl, ?_⟩
  · intro h; simp [LsDdl.urgency, h]
  · intro d hd
    refine ⟨by simp [LsDdl.days_left, hd], ?_, ?_⟩
    · intro h7; simp [LsDdl.urgency, hd, h7]
    · intro h7; simp only [LsDdl.urgency, hd]; rw [if_neg (by omega)]
  · intro h
    rcases h with h | h <;> simp [LsDdl.importance, h]
  · intro h; simp [LsDdl.importance, h]
  · intro h
    simp only [List.mem_cons, List.not_mem_nil, or_false, not_or] at h
    simp [LsDdl.importance, h.1, h.2.1, h.2.2]
  · intro u i h
    simp only [LsDdl.quadrantTable, List.map_cons, List.map_nil, List.mem_cons,
      List.not_mem_nil, or_false, not_or] at h
    obtain ⟨h1, h2, h3, h4, h5, h6, h7, h8, h9⟩ := h
    simp [LsDdl.quadrantOf, LsDdl.quadrantTable, List.lookup,
      beq_eq_false_iff_ne.mpr h1, beq_eq_false_iff_ne.mpr h2,
      beq_eq_false_iff_ne.mpr h3, beq_eq_false_iff_ne.mpr h4,
      beq_eq_false_iff_ne.mpr h5, beq_eq_false_iff_ne.mpr h6,
      beq_eq_false_iff_ne.mpr h7, beq_eq_false_iff_ne.mpr h8,
      beq_eq_false_iff_ne.mpr h9]

/-- Witness for C1: a project due in 3 days with raw priority `"HIGH"` is
urgent and important; a pair outside the table maps to `"q4"`. -/
theorem claim_C1_witness :
    LsDdl.urgency 0 (LsDdl.mkProject "alpha" (some 3) (some "HIGH") none "a.yml") = "urgent" ∧
    LsDdl.importance (LsDdl.mkProject "alpha" (some 3) (some "HIGH") none "a.yml") = "important" ∧
    LsDdl.quadrantOf "no_deadline" "nonsense" = "q4" :=
  ⟨((claim_C1 0 (LsDdl.mkProject "alpha" (some 3) (some "HIGH") none "a.yml")).2.1 3
      rfl).2.1 (by decide),
   (claim_C1 0 (LsDdl.mkProject "alpha" (some 3) (some "HIGH") none "a.yml")).2.2.1
      (Or.inl (by decide)),
   (claim_C1 0 (LsDdl.mkProject "alpha" (some 3) (some "HIGH") none "a.yml")).2.2.2.2.2.2
      "no_deadline" "nonsense" (by decide)⟩

/-- C2: on a fixed day, `save x` then `load` returns `{error: absent,
content: x}`; `load` under any other calendar date than the stored one is a
miss (never an error), regardless of prior saves; `save` overwrites any prior
entry. -/
theorem claim_C2 (cache : Summary.Cache) (x today : String) :
    Summary.load_cached_analysis (Summary.save_analysis_to_cache cache today x) today =
      some ⟨none, x⟩ ∧
    (∀ d c : String, d ≠ today →
      Summary.load_cached_analysis (some (d, c)) today = none) ∧
    Summary.load_cached_analysis none today = none ∧
    Summary.save_analysis_to_cache cache today x = some (today, x) := by
  refine ⟨?_, ?_, rfl, rfl⟩
  · simp [Summary.load_cached_analysis, Summary.save_analysis_to_cache]
  · intro d c hd
    simp [Summary.load_cached_analysis, hd]

/-- Witness for C2: saving `"R1"` on `2024-01-01` and loading on the same day
hits; loading the stored entry on `2024-01-02` misses. -/
theorem claim_C2_witness :
    Summary.load_cached_analysis
      (Summary.save_analysis_to_cache none "2024-01-01" "R1") "2024-01-01" =
      some ⟨none, "R1"⟩ ∧
    Summary.load_cached_analysis (some ("2024-01-01", "R1")) "2024-01-02" = none :=
  ⟨(claim_C2 none "R1" "2024-01-01").1,
   (claim_C2 none "R1" "2024-01-02").2.1 "2024-01-01" "R1" (by decide)⟩

/-- C3: with `force = false` a same-day cache hit is returned with no
external call; on a miss (or `force = true`) a missing credential yields the
configuration error with no call; with a credential and an empty project
list the result is exactly `{error: "No projects to analyze", content: ""}`
with no call. -/
theorem claim_C3 (apiKey : Option String) (cache : Summary.Cache) (today : String)
    (projects : List Summary.ProjectWithProgress) (call : Summary.CallOutcome) :
    (∀ r, Summary.load_cached_analysis cache today = some r →
      Summary.analyze_projects apiKey cache today projects false call =
        ⟨r, false, cache⟩) ∧
    (∀ force : Bool, (force = true ∨ Summary.load_cached_analysis cache today = none) →
      Summary.keyMissing apiKey = true →
      Summary.analyze_projects apiKey cache today projects force call =
        ⟨⟨some Summary.apiKeyMissingMsg, ""⟩, false, cache⟩) ∧
    (∀ force : Bool, (force = true ∨ Summary.load_cached_analysis cache today = none) →
      Summary.keyMissing apiKey = false → projects = [] →
      Summary.analyze_projects apiKey cache today projects force call =
        ⟨⟨some Summary.noProjectsMsg, ""⟩, false, cache⟩) := by
  refine ⟨?_, ?_, ?_⟩
  · intro r hr
    simp [Summary.analyze_projects, hr]
  · intro force hmiss hkey
    rcases hmiss with h | h <;> subst_eqs <;>
      simp [Summary.analyze_projects, hkey] <;> simp_all [Summary.analyze_projects, hkey]
  · intro force hmiss hkey hps
    subst hps
    rcases hmiss with h | h <;> subst_eqs <;>
      simp_all [Summary.analyze_projects, hkey]

/-- Witness for C3: with a configured key and zero projects, a forced call
returns the empty-input error without a network call; with no key it returns
the configuration error. -/
theorem claim_C3_witness :
    Summary.analyze_projects (some "k") none "2024-01-01" [] true (.failure "boom") =
      ⟨⟨some Summary.noProjectsMsg, ""⟩, false, none⟩ ∧
    Summary.analyze_projects none none "2024-01-01" [] false (.failure "boom") =
      ⟨⟨some Summary.apiKeyMissingMsg, ""⟩, false, none⟩ :=
  ⟨(claim_C3 (some "k") none "2024-01-01" [] (.failure "boom")).2.2 true
      (Or.inl rfl) (by decide) rfl,
   (claim_C3 none none "2024-01-01" [] (.failure "boom")).2.1 false
      (Or.inr rfl) (by decide)⟩

namespace LsDdl

/-- `urgency` only takes the three enumeration values. -/
theorem urgency_cases (today : Int) (p : Project) :
    urgency today p = "urgent" ∨ urgency today p = "not_urgent" ∨
      urgency today p = "no_deadline" := by
  cases hd : p.ddl <;> simp [urgency, hd]
  omega

/-- `importance` only takes the three enumeration values. -/
theorem importance_cases (p : Project) :
    importance p = "important" ∨ importance p = "routine" ∨ importance p = "low" := by
  unfold importance
  split_ifs <;> simp

/-- `quadrant` always lands on one of the six dict keys. -/
theorem quadrant_mem_keys (today : Int) (p : Project) :
    quadrant today p ∈ quadrantKeys := by
  rcases urgency_cases today p with hu | hu | hu <;>
    rcases importance_cases p with hi | hi | hi <;>
      (unfold quadrant; rw [hu, hi]; decide)

/-- Membership in a quadrant's sorted list is membership in the input with
that quadrant value. -/
theorem mem_groupsFor {today : Int} {ps : List Project} {q : String} {p : Project} :
    p ∈ groupsFor today ps q ↔ p ∈ ps ∧ quadrant today p = q := by
  simp [groupsFor, List.mem_insertionSort, List.mem_filter]

/-- The six quadrant filters split the length of the input list. -/
theorem filter_quadrant_length_sum (today : Int) (ps : List Project) :
    (ps.filter (fun p => quadrant today p = "q1")).length +
      (ps.filter (fun p => quadrant today p = "q2")).length +
      (ps.filter (fun p => quadrant today p = "q3")).length +
      (ps.filter (fun p => quadrant today p = "q4")).length +
      (ps.filter (fun p => quadrant today p = "q5")).length +
      (ps.filter (fun p => quadrant today p = "q6")).length = ps.length := by
  induction ps with
  | nil => simp
  | cons a l ih =>
    have ha := quadrant_mem_keys today a
    simp only [quadrantKeys, List.mem_cons, List.not_mem_nil, or_false] at ha
    rcases ha with h | h | h | h | h | h <;>
      simp [List.filter_cons, h] <;> omega

/-- Consequences of one `sortLe` comparison: overdue sorts before
non-overdue, and among equal overdue rank the effective days are
non-decreasing. -/
theorem sortLe_facts (today : Int) (a b : Project) (h : sortLe today a b = true) :
    (is_overdue today b = true → is_overdue today a = true) ∧
    (is_overdue today a = false → is_overdue today b = false →
      effDays today a ≤ effDays today b) := by
  refine ⟨fun hb => ?_, fun ha hb => ?_⟩
  · by_contra ha
    rw [Bool.not_eq_true] at ha
    unfold sortLe overdueRank at h
    rw [ha, hb] at h
    simp at h
  · unfold sortLe overdueRank at h
    rw [ha, hb] at h
    simp at h
    rcases h with h | ⟨h, -⟩ <;> omega

end LsDdl

/-- C5: grouping by quadrant is a partition: the output has exactly the six
quadrant groups (in order, possibly empty), every input project belongs to
exactly one of the six groups, and the group sizes sum to the input size. -/
theorem claim_C5 (today : Int) (ps : List LsDdl.Project) :
    (LsDdl.group_by_quadrant today ps).map Prod.fst = LsDdl.quadrantKeys ∧
    (∀ p ∈ ps, ∃! q, q ∈ LsDdl.quadrantKeys ∧ p ∈ LsDdl.groupsFor today ps q) ∧
    ((LsDdl.group_by_quadrant today ps).map (fun g => g.2.length)).sum = ps.length := by
  refine ⟨rfl, ?_, ?_⟩
  · intro p hp
    refine ⟨LsDdl.quadrant today p, ⟨LsDdl.quadrant_mem_keys today p, ?_⟩, ?_⟩
    · exact LsDdl.mem_groupsFor.mpr ⟨hp, rfl⟩
    · rintro q ⟨-, hm⟩
      exact (LsDdl.mem_groupsFor.mp hm).2.symm
  · simp only [LsDdl.group_by_quadrant, LsDdl.quadrantKeys, List.map_cons, List.map_nil,
      List.sum_cons, List.sum_nil, LsDdl.groupsFor, List.length_insertionSort]
    have := LsDdl.filter_quadrant_length_sum today ps
    omega

/-- Sample project for witnesses: overdue by one day, high priority. -/
def wA : LsDdl.Project := LsDdl.mkProject "alpha" (some (-1)) (some "high") none "a.yml"

/-- Sample project for witnesses: due in three days, priority tag `urgent`. -/
def wB : LsDdl.Project := LsDdl.mkProject "beta" (some 3) (some "urgent") (some "x") "b.yml"

/-- Witness for C5: a concrete project lies in exactly one of the six
quadrant groups. -/
theorem claim_C5_witness :
    ∃! q, q ∈ LsDdl.quadrantKeys ∧ wA ∈ LsDdl.groupsFor 0 [wA] q :=
  (claim_C5 0 [wA]).2.1 wA (by decide)

/-- C6: each quadrant group is sorted ascending by the composite key
`(0 if overdue else 1, daysLeft ?? 9999, name)`; consequently an overdue
project never follows a non-overdue one, and among projects of equal overdue
status the effective days-left (9999 when the deadline is absent) are
non-decreasing, names breaking the remaining ties. -/
theorem claim_C6 (today : Int) (ps : List LsDdl.Project) (q : String) :
    (LsDdl.groupsFor today ps q).Pairwise (LsDdl.sortRel today) ∧
    (∀ i j : Fin (LsDdl.groupsFor today ps q).length, i < j →
      (LsDdl.is_overdue today ((LsDdl.groupsFor today ps q).get j) = true →
        LsDdl.is_overdue today ((LsDdl.groupsFor today ps q).get i) = true) ∧
      (LsDdl.is_overdue today ((LsDdl.groupsFor today ps q).get i) = false →
        LsDdl.is_overdue today ((LsDdl.groupsFor today ps q).get j) = false →
        LsDdl.effDays today ((LsDdl.groupsFor today ps q).get i) ≤
          LsDdl.effDays today ((LsDdl.groupsFor today ps q).get j))) := by
  have hs : (LsDdl.groupsFor today ps q).Pairwise (LsDdl.sortRel today) :=
    List.sorted_insertionSort (LsDdl.sortRel today) _
  refine ⟨hs, ?_⟩
  intro i j hij
  exact LsDdl.sortLe_facts today _ _ (List.pairwise_iff_get.mp hs i j hij)

/-- Sample project for witnesses: due in five days, high priority. -/
def wC : LsDdl.Project := LsDdl.mkProject "gamma" (some 5) (some "high") none "c.yml"

/-- Witness for C6: in quadrant `q1` of a concrete two-project list of
non-overdue projects, effective days-left are non-decreasing. -/
theorem claim_C6_witness :
    LsDdl.effDays 0 ((LsDdl.groupsFor 0 [wC, wB] "q1").get ⟨0, by decide⟩) ≤
      LsDdl.effDays 0 ((LsDdl.groupsFor 0 [wC, wB] "q1").get ⟨1, by decide⟩) :=
  ((claim_C6 0 [wC, wB] "q1").2 ⟨0, by decide⟩ ⟨1, by decide⟩ (by decide)).2
    (by decide) (by decide)

/-- A list is a permutation of its `p`-part followed by its `not p`-part. -/
theorem filter_not_filter_perm {α : Type} (p : α → Bool) (l : List α) :
    (l.filter p ++ l.filter (fun a => !p a)).Perm l := by
  induction l with
  | nil => simp
  | cons a l ih =>
    cases hpa : p a
    · simp only [List.filter_cons, hpa, Bool.not_false, if_true, if_false, cond_false]
      exact List.perm_middle.trans (ih.cons a)
    · simp only [List.filter_cons, hpa, Bool.not_true, if_true, if_false, cond_true]
      exact ih.cons a

/-- C7: the flat deadline-triage ordering of `load_projects` is a
permutation of the input and decomposes as the with-deadline projects,
sorted by `(deadline, name)`, followed by the no-deadline projects sorted by
name alone — deadline presence dominates the ordering entirely. -/
theorem claim_C7 (ps : List Summary.ProjectWithProgress) :
    (Summary.sort_projects ps).Perm ps ∧
    ∃ A B, Summary.sort_projects ps = A ++ B ∧
      (∀ p ∈ A, p.ddl ≠ none) ∧ (∀ p ∈ B, p.ddl = none) ∧
      A.Pairwise Summary.ddlNameRel ∧ B.Pairwise Summary.nameRel := by
  constructor
  · exact ((List.perm_insertionSort Summary.ddlNameRel _).append
      (List.perm_insertionSort Summary.nameRel _)).trans
        (filter_not_filter_perm (fun p => p.ddl.isSome) ps)
  · refine ⟨_, _, rfl, ?_, ?_, List.sorted_insertionSort _ _, List.sorted_insertionSort _ _⟩
    · intro p hp
      have h := (List.mem_filter.mp ((List.mem_insertionSort _).mp hp)).2
      exact Option.isSome_iff_ne_none.mp h
    · intro p hp
      have h := (List.mem_filter.mp ((List.mem_insertionSort _).mp hp)).2
      simpa [Option.isSome_iff_ne_none] using h

/-- Sample summary project for witnesses: no deadline, low priority. -/
def wS1 : Summary.ProjectWithProgress :=
  Summary.mkProjectWithProgress "zeta" none (some "low") none none "z.yml"

/-- Sample summary project for witnesses: deadline five days out, raw
priority `"HIGH"`. -/
def wS2 : Summary.ProjectWithProgress :=
  Summary.mkProjectWithProgress "alpha" (some 5) (some "HIGH") (some "d") (some "p") "a.yml"

/-- Witness for C7 on a concrete two-project list. -/
theorem claim_C7_witness :
    (Summary.sort_projects [wS1, wS2]).Perm [wS1, wS2] ∧
    ∃ A B, Summary.sort_projects [wS1, wS2] = A ++ B ∧
      (∀ p ∈ A, p.ddl ≠ none) ∧ (∀ p ∈ B, p.ddl = none) ∧
      A.Pairwise Summary.ddlNameRel ∧ B.Pairwise Summary.nameRel :=
  claim_C7 [wS1, wS2]

/-- C10 (implicit): with `force = false` and a same-day cache entry, the hit
is returned before any precondition check — no credential and a possibly
empty project list included — with no external call and the cache left
unchanged. -/
theorem claim_C10 (apiKey : Option String) (today c : String)
    (projects : List Summary.ProjectWithProgress) (call : Summary.CallOutcome) :
    Summary.analyze_projects apiKey (some (today, c)) today projects false call =
      ⟨⟨none, c⟩, false, some (today, c)⟩ := by
  simp [Summary.analyze_projects, Summary.load_cached_analysis]

/-- C8 counterexample: a raw priority tag `"medium"` is stored as
`"medium"`, not normalized to `"normal"`, in both constructors. -/
theorem claim_C8_counterexample :
    (LsDdl.mkProject "n" none (some "medium") none "n.yml").priority = "medium" ∧
    (Summary.mkProjectWithProgress "n" none (some "medium") none none "n.yml").priority =
      "medium" ∧
    ("medium" : String) ≠ "normal" := by
  decide

/-- C8 amended: the stored priority tag is the lower-cased raw value when the
raw value is present and non-empty, and `"normal"` when it is absent or
empty; a stored value other than `"high"`, `"urgent"`, `"low"` is not
rewritten to `"normal"` but is classified `routine`, exactly as `"normal"`
is. -/
theorem claim_C8_amended (name fp : String) (d : Option Int) (desc : Option String)
    (r : Option String) :
    ((r = none ∨ r = some "") →
      (LsDdl.mkProject name d r desc fp).priority = "normal" ∧
      (Summary.mkProjectWithProgress name d r desc none fp).priority = "normal") ∧
    (∀ s, r = some s → s ≠ "" →
      (LsDdl.mkProject name d r desc fp).priority = lowerStr s ∧
      (Summary.mkProjectWithProgress name d r desc none fp).priority = lowerStr s) ∧
    (∀ s, r = some s → s ≠ "" →
      lowerStr s ∉ (["high", "urgent", "low"] : List String) →
      LsDdl.importance (LsDdl.mkProject name d r desc fp) = "routine" ∧
      LsDdl.importance (LsDdl.mkProject name d (some "normal") desc fp) = "routine") := by
  refine ⟨?_, ?_, ?_⟩
  · rintro (h | h) <;> subst h <;>
      exact ⟨rfl, rfl⟩
  · intro s hr hs
    subst hr
    exact ⟨by simp [LsDdl.mkProject, hs], by simp [Summary.mkProjectWithProgress, hs]⟩
  · intro s hr hs hmem
    subst hr
    simp only [List.mem_cons, List.not_mem_nil, or_false, not_or] at hmem
    have hp : (LsDdl.mkProject name d (some s) desc fp).priority = lowerStr s := by
      simp [LsDdl.mkProject, hs]
    refine ⟨?_, rfl⟩
    simp [LsDdl.importance, hp, hmem.1, hmem.2.1, hmem.2.2]

/-- Witness for C8 amended: raw tags `"HIGH"`, `""`, and `"medium"`. -/
theorem claim_C8_amended_witness :
    (LsDdl.mkProject "n" none (some "") none "n.yml").priority = "normal" ∧
    (LsDdl.mkProject "n" none (some "HIGH") none "n.yml").priority = lowerStr "HIGH" ∧
    LsDdl.importance (LsDdl.mkProject "n" none (some "medium") none "n.yml") = "routine" :=
  ⟨((claim_C8_amended "n" "n.yml" none none (some "")).1 (Or.inr rfl)).1,
   ((claim_C8_amended "n" "n.yml" none none (some "HIGH")).2.1 "HIGH" rfl (by decide)).1,
   ((claim_C8_amended "n" "n.yml" none none (some "medium")).2.2 "medium" rfl (by decide)
      (by decide)).1⟩

/-- C9 counterexample: a project overdue by 2 days displays
`"OVERDUE by 2d"`, not the claimed `"overdue by 2d"` (and the terse variant
at zero days displays `"Today"`, not `"today"`). -/
theorem claim_C9_counterexample :
    Summary.display_deadline 0
      (Summary.mkProjectWithProgress "c" (some (-2)) (some "normal") none none "c.yml") =
      "OVERDUE by 2d" ∧
    ("OVERDUE by 2d" : String) ≠ "overdue by 2d" ∧
    LsDdl.display_deadline 0 (LsDdl.mkProject "c" (some 0) (some "normal") none "c.yml") =
      "Today" ∧
    ("Today" : String) ≠ "today" := by
  decide

/-- C9 amended: the detail-view deadline string is, by `daysLeft`:
`< 0` → `"OVERDUE by |d|d"`, `= 0` → `"DUE TODAY"`, `1..3` →
`"URGENT (dd left)"`, `4..7` → `"SOON (dd left)"`, `> 7` → `"dd left"`,
absent → `"No deadline"`; the terse matrix-view variant gives `"|d|d ago"`
for `< 0`, `"Today"` for `0`, `"dd"` otherwise, and `"No ddl"` when absent.
A project overdue by 2 days displays `"OVERDUE by 2d"` and one due in 3 days
displays `"URGENT (3d left)"`. -/
theorem claim_C9_amended (today : Int) (p : Summary.ProjectWithProgress)
    (r : LsDdl.Project) :
    (p.ddl = none → Summary.display_deadline today p = "No deadline") ∧
    (∀ d : Int, p.ddl = some d → d - today < 0 →
      Summary.display_deadline today p = "OVERDUE by " ++ toString (d - today).natAbs ++ "d") ∧
    (∀ d : Int, p.ddl = some d → d - today = 0 →
      Summary.display_deadline today p = "DUE TODAY") ∧
    (∀ d : Int, p.ddl = some d → 1 ≤ d - today → d - today ≤ 3 →
      Summary.display_deadline today p = "URGENT (" ++ toString (d - today) ++ "d left)") ∧
    (∀ d : Int, p.ddl = some d → 4 ≤ d - today → d - today ≤ 7 →
      Summary.display_deadline today p = "SOON (" ++ toString (d - today) ++ "d left)") ∧
    (∀ d : Int, p.ddl = some d → 7 < d - today →
      Summary.display_deadline today p = toString (d - today) ++ "d left") ∧
    (r.ddl = none → LsDdl.display_deadline today r = "No ddl") ∧
    (∀ d : Int, r.ddl = some d → d - today < 0 →
      LsDdl.display_deadline today r = toString (d - today).natAbs ++ "d ago") ∧
    (∀ d : Int, r.ddl = some d → d - today = 0 →
      LsDdl.display_deadline today r = "Today") ∧
    (∀ d : Int, r.ddl = some d → 0 < d - today →
      LsDdl.display_deadline today r = toString (d - today) ++ "d") := by
  refine ⟨?_, ?_, ?_, ?_, ?_, ?_, ?_, ?_, ?_, ?_⟩ <;>
    first
      | (intro h; simp [Summary.display_deadline, LsDdl.display_deadline, h])
      | (intro d hd h
         simp only [Summary.display_deadline, LsDdl.display_deadline, hd]
         split_ifs <;> first | rfl | omega)
      | (intro d hd h1 h2
         simp only [Summary.display_deadline, hd]
         split_ifs <;> first | rfl | omega)

/-- Witness for C9 amended: overdue by 2 days, due in 3 days, and the terse
variant overdue by 2 days. -/
theorem claim_C9_amended_witness :
    Summary.display_deadline 0
      (Summary.mkProjectWithProgress "c" (some (-2)) (some "normal") none none "c.yml") =
      "OVERDUE by " ++ toString ((-2 : Int) - 0).natAbs ++ "d" ∧
    Summary.display_deadline 0
      (Summary.mkProjectWithProgress "a" (some 3) (some "high") none none "a.yml") =
      "URGENT (" ++ toString ((3 : Int) - 0) ++ "d left)" ∧
    LsDdl.display_deadline 0 (LsDdl.mkProject "c" (some (-2)) (some "normal") none "c.yml") =
      toString ((-2 : Int) - 0).natAbs ++ "d ago" :=
  ⟨(claim_C9_amended 0
      (Summary.mkProjectWithProgress "c" (some (-2)) (some "normal") none none "c.yml")
      (LsDdl.mkProject "c" (some (-2)) (some "normal") none "c.yml")).2.1 (-2) rfl
        (by decide),
   (claim_C9_amended 0
      (Summary.mkProjectWithProgress "a" (some 3) (some "high") none none "a.yml")
      (LsDdl.mkProject "c" (some (-2)) (some "normal") none "c.yml")).2.2.2.1 3 rfl
        (by decide) (by decide),
   (claim_C9_amended 0
      (Summary.mkProjectWithProgress "c" (some (-2)) (some "normal") none none "c.yml")
      (LsDdl.mkProject "c" (some (-2)) (some "normal") none "c.yml")).2.2.2.2.2.2.2.1 (-2)
        rfl (by decide)⟩

/-- A transport-failure message is never the empty string. -/
theorem transportMsg_ne_empty (msg : String) : ("API call failed: " ++ msg) ≠ "" := by
  intro h
  have hlen := congrArg String.length h
  rw [String.length_append] at hlen
  have h1 : ("API call failed: " : String).length = 17 := by decide
  have h2 : ("" : String).length = 0 := by decide
  omega

/-- The empty-response failure message differs from every transport-failure
message. -/
theorem emptyResponseMsg_ne_transport (msg : String) :
    Summary.emptyResponseMsg ≠ "API call failed: " ++ msg := by
  intro h
  have hlen := congrArg String.length h
  rw [String.length_append] at hlen
  have h1 : Summary.emptyResponseMsg.length = 9 := by decide
  have h2 : ("API call failed: " : String).length = 17 := by decide
  omega

/-- C4 counterexample: an external call that succeeds with the whitespace-only
content `" "` is delivered as the distinct empty-response failure, yet the
cache IS written — the claim's "nothing is written to the cache" fails. -/
theorem claim_C4_counterexample :
    Summary.blankContent " " = true ∧
    (Summary.analyze_projects (some "k") none "2024-01-01" [wS2] true (.success " ")).cache ≠
      none ∧
    (Summary.analyze_projects (some "k") none "2024-01-01" [wS2] true (.success " ")).cache =
      some ("2024-01-01", " ") ∧
    Summary.on_analysis_complete
      (Summary.analyze_projects (some "k") none "2024-01-01" [wS2] true
        (.success " ")).result = .shownError Summary.emptyResponseMsg := by
  decide

/-- C4 amended: a transport failure delivers
`{error: "API call failed: " ++ message, content: ""}` and leaves the cache
unchanged; a success with empty content is delivered as the empty-response
failure (distinct from every transport failure) and is not cached; a success
with whitespace-only non-empty content is delivered as the same distinct
failure but IS written to the cache; a success is persisted iff its content
is non-empty. -/
theorem claim_C4_amended (k : String) (hk : k ≠ "") (cache : Summary.Cache)
    (today : String) (ps : List Summary.ProjectWithProgress) (hps : ps ≠ []) :
    (∀ msg,
      (Summary.analyze_projects (some k) cache today ps true (.failure msg)).result =
        ⟨some ("API call failed: " ++ msg), ""⟩ ∧
      (Summary.analyze_projects (some k) cache today ps true (.failure msg)).cache = cache ∧
      Summary.on_analysis_complete
        (Summary.analyze_projects (some k) cache today ps true (.failure msg)).result =
        .shownError ("API call failed: " ++ msg)) ∧
    ((Summary.analyze_projects (some k) cache today ps true (.success "")).cache = cache ∧
      Summary.on_analysis_complete
        (Summary.analyze_projects (some k) cache today ps true (.success "")).result =
        .shownError Summary.emptyResponseMsg) ∧
    (∀ c, c ≠ "" → Summary.blankContent c = true →
      Summary.on_analysis_complete
        (Summary.analyze_projects (some k) cache today ps true (.success c)).result =
        .shownError Summary.emptyResponseMsg ∧
      (Summary.analyze_projects (some k) cache today ps true (.success c)).cache =
        some (today, c)) ∧
    (∀ c, Summary.blankContent c = false →
      (Summary.analyze_projects (some k) cache today ps true (.success c)).cache =
        some (today, c) ∧
      Summary.on_analysis_complete
        (Summary.analyze_projects (some k) cache today ps true (.success c)).result =
        .shownResults c) ∧
    (∀ msg, Summary.emptyResponseMsg ≠ "API call failed: " ++ msg) := by
  have hkm : Summary.keyMissing (some k) = false := by
    simp [Summary.keyMissing, hk]
  have hemp : ps.isEmpty = false := by
    cases ps with
    | nil => exact absurd rfl hps
    | cons a l => rfl
  refine ⟨?_, ?_, ?_, ?_, emptyResponseMsg_ne_transport⟩
  · intro msg
    refine ⟨?_, ?_, ?_⟩ <;>
      simp [Summary.analyze_projects, hkm, hemp, Summary.on_analysis_complete,
        transportMsg_ne_empty msg]
  · constructor <;>
      simp [Summary.analyze_projects, hkm, hemp, Summary.on_analysis_complete,
        Summary.save_analysis_to_cache, Summary.blankContent]
  · intro c hc hblank
    constructor <;>
      simp [Summary.analyze_projects, hkm, hemp, Summary.on_analysis_complete,
        Summary.save_analysis_to_cache, hc, hblank]
  · intro c hblank
    have hc : c ≠ "" := by
      intro h
      subst h
      simp [Summary.blankContent] at hblank
    constructor <;>
      simp [Summary.analyze_projects, hkm, hemp, Summary.on_analysis_complete,
        Summary.save_analysis_to_cache, hc, hblank]

/-- Witness for C4 amended: a concrete transport failure leaves the cache
empty, and non-blank content `"R1"` is persisted. -/
theorem claim_C4_amended_witness :
    (Summary.analyze_projects (some "k") none "2024-01-01" [wS2] true
      (.failure "boom")).cache = none ∧
    (Summary.analyze_projects (some "k") none "2024-01-01" [wS2] true
      (.success "R1")).cache = some ("2024-01-01", "R1") :=
  ⟨((claim_C4_amended "k" (by decide) none "2024-01-01" [wS2] (by decide)).1 "boom").2.1,
   ((claim_C4_amended "k" (by decide) none "2024-01-01" [wS2] (by decide)).2.2.2.1 "R1"
      (by decide)).1⟩

end MacUtils
